import Mathlib

/-!
Verification development for the CADRE launch-analysis pipeline
(`src/CADRE/CADRE_launch.py`).

The file embeds the numerical components of the pipeline over the real
numbers:

* `Uniformity.execute` — the excess-kurtosis-based uniformity scorer
  (`scipy.stats.kurtosis` with its defaults `fisher=True, bias=True`);
* `GroundLOC.execute` — the per-sample ground-track projector
  (latitude/longitude of the sub-satellite point);
* the `CADRE_Launch` assembly wiring: time grid construction, the fixed
  workflow order, the port connections, and the objective
  `Lat_uniform.k + Lon_uniform.k`;
* the parameter assignment performed by the `f` closure of the
  `__main__` search driver.

The external collaborators (`Orbit_Initial`, `Orbit_Dynamics`,
`Comm_EarthsSpin`, `Comm_EarthsSpinMtx`) live in modules that are not part
of this repository snapshot; they are abstracted as the `Externals`
record, modelled from the spec, and every pipeline theorem is universally
quantified over them.
-/

namespace CADRE

/-! ### Uniformity scorer (`Uniformity.execute`) -/

/-- Sample mean, as computed by `numpy`: `a.mean() = a.sum() / len(a)`.
(For the empty list this is `0/0 = 0` under Lean's division convention.) -/
noncomputable def mean (s : List ℝ) : ℝ := s.sum / s.length

/-- The function `scipy.stats.moment(a, k)`: the k-th central sample moment
`mean((a - a.mean())**k)`. -/
noncomputable def moment (s : List ℝ) (k : ℕ) : ℝ :=
  (s.map (fun x => (x - mean s) ^ k)).sum / s.length

/-- The function `scipy.stats.kurtosis(a)` with the defaults `fisher=True, bias=True`:
`m4 / m2**2 - 3`, where `scipy` maps the zero-variance case `m2 == 0` to the
value `0 - 3` via `np.where(m2 == 0, 0, m4 / m2**2)`; Lean's division
convention `x / 0 = 0` yields exactly the same value, so no case split is
needed. -/
noncomputable def kurtosis (s : List ℝ) : ℝ :=
  moment s 4 / (moment s 2) ^ 2 - 3

/-- The body of `Uniformity.execute`: `self.k = (kurtosis(self.sample.flatten()) + 6./5)**2`. -/
noncomputable def uniformity_k (s : List ℝ) : ℝ :=
  (kurtosis s + 6 / 5) ^ 2

/-- Spec-side formulation of the 4th standardized moment: the mean of the
fourth powers of the standardized deviations `(x - μ) / σ`, `σ = √m₂`. -/
noncomputable def std_moment4 (s : List ℝ) : ℝ :=
  mean (s.map (fun x => ((x - mean s) / Real.sqrt (moment s 2)) ^ 4))

/-- Spec-side excess kurtosis (Fisher convention): 4th standardized moment
minus 3. -/
noncomputable def excess_kurtosis_spec (s : List ℝ) : ℝ :=
  std_moment4 s - 3

theorem moment_two_nonneg (s : List ℝ) : 0 ≤ moment s 2 := by
  unfold moment
  apply div_nonneg _ (by positivity)
  apply List.sum_nonneg
  intro x hx
  simp only [List.mem_map] at hx
  obtain ⟨y, _, rfl⟩ := hx
  positivity

/-! ### Ground-track projector (`GroundLOC.execute`) -/

/-- The `GroundLOC` class constant `Re = 6378.137` (spherical Earth radius
in km). -/
noncomputable def Re : ℝ := 6378.137

/-- The `GroundLOC` class constant `r2d = 180 / np.pi`. -/
noncomputable def r2d : ℝ := 180 / Real.pi

/-- The function `np.arctan2(y, x)`: the argument of the point `(x, y)`, in `(-π, π]`,
with `arctan2(0, 0) = 0`. -/
noncomputable def arctan2 (y x : ℝ) : ℝ :=
  Complex.arg (x + y * Complex.I)

/-- The value `np.linalg.norm(p)` for a 3-vector: the square root of the sum of the
squared components. -/
noncomputable def norm3 (p : Fin 3 → ℝ) : ℝ :=
  Real.sqrt (∑ j, p j ^ 2)

/-- The statement `self.pos = self.r_e2b_I[:3, i]`: the position block (rows 0–2) of the
6×n state history at sample `i`. -/
def posCol {n : ℕ} (r_e2b_I : Fin 6 → Fin n → ℝ) (i : Fin n) : Fin 3 → ℝ :=
  fun j => r_e2b_I (Fin.castLE (by norm_num) j) i

/-- The statement `self.npos = self.pos / np.linalg.norm(self.pos) * self.Re`. -/
noncomputable def nposOf (p : Fin 3 → ℝ) : Fin 3 → ℝ :=
  fun j => p j / norm3 p * Re

/-- The statement `self.g_pos = np.dot(self.O_IE[:, :, i].T, self.npos)`:
`(Mᵀ v)_j = Σ_k M_{k j} v_k`. -/
noncomputable def gposOf (M : Matrix (Fin 3) (Fin 3) ℝ) (p : Fin 3 → ℝ) :
    Fin 3 → ℝ :=
  fun j => ∑ k, M k j * nposOf p k

/-- The statement `self.lats[i] = np.arcsin(self.g_pos[2] / self.Re) * self.r2d`. -/
noncomputable def groundLOC_lat {n : ℕ} (O_IE : Fin n → Matrix (Fin 3) (Fin 3) ℝ)
    (r_e2b_I : Fin 6 → Fin n → ℝ) (i : Fin n) : ℝ :=
  Real.arcsin (gposOf (O_IE i) (posCol r_e2b_I i) 2 / Re) * r2d

/-- The statement `self.lons[i] = np.arctan2(self.g_pos[1], self.g_pos[0]) * self.r2d`. -/
noncomputable def groundLOC_lon {n : ℕ} (O_IE : Fin n → Matrix (Fin 3) (Fin 3) ℝ)
    (r_e2b_I : Fin 6 → Fin n → ℝ) (i : Fin n) : ℝ :=
  arctan2 (gposOf (O_IE i) (posCol r_e2b_I i) 1)
    (gposOf (O_IE i) (posCol r_e2b_I i) 0) * r2d

/-- The latitude output array of `GroundLOC.execute`: the loop
`for i in xrange(self.n)` fills `self.lats` in sample order. -/
noncomputable def groundLOC_lats (n : ℕ) (O_IE : Fin n → Matrix (Fin 3) (Fin 3) ℝ)
    (r_e2b_I : Fin 6 → Fin n → ℝ) : List ℝ :=
  List.ofFn (groundLOC_lat O_IE r_e2b_I)

/-- The longitude output array of `GroundLOC.execute`. -/
noncomputable def groundLOC_lons (n : ℕ) (O_IE : Fin n → Matrix (Fin 3) (Fin 3) ℝ)
    (r_e2b_I : Fin 6 → Fin n → ℝ) : List ℝ :=
  List.ofFn (groundLOC_lon O_IE r_e2b_I)

/-! Spec-side formulation of the projector (§4.2 of the spec), written from
the spec's words: `npos = pos / ‖pos‖ · Re` with the Euclidean norm,
`g_pos = Rᵢᵀ · npos` as a matrix-vector product with the transpose,
`lat = asin(g_pos.z / Re) · (180/π)`, `lon = atan2(g_pos.y, g_pos.x) · (180/π)`. -/

/-- The Euclidean norm `‖pos‖` of a position 3-vector. -/
noncomputable def specNorm (p : Fin 3 → ℝ) : ℝ :=
  ‖(EuclideanSpace.equiv (Fin 3) ℝ).symm p‖

/-- Spec-side latitude: `asin(((Rᵀ)(pos/‖pos‖ · Re)).z / Re) · (180/π)`. -/
noncomputable def specLat (R : Matrix (Fin 3) (Fin 3) ℝ) (p : Fin 3 → ℝ) : ℝ :=
  Real.arcsin ((Matrix.transpose R).mulVec (Re • (specNorm p)⁻¹ • p) 2 / Re)
    * (180 / Real.pi)

/-- Spec-side longitude: `atan2(g_pos.y, g_pos.x) · (180/π)` of the same
rotated, surface-normalized vector. -/
noncomputable def specLon (R : Matrix (Fin 3) (Fin 3) ℝ) (p : Fin 3 → ℝ) : ℝ :=
  arctan2 ((Matrix.transpose R).mulVec (Re • (specNorm p)⁻¹ • p) 1)
    ((Matrix.transpose R).mulVec (Re • (specNorm p)⁻¹ • p) 0)
    * (180 / Real.pi)

theorem specNorm_eq_norm3 (p : Fin 3 → ℝ) : specNorm p = norm3 p := by
  unfold specNorm norm3
  rw [EuclideanSpace.norm_eq]
  congr 1
  apply Finset.sum_congr rfl
  intro j _
  rw [Real.norm_eq_abs, sq_abs]
  rfl

theorem gpos_eq_spec (R : Matrix (Fin 3) (Fin 3) ℝ) (p : Fin 3 → ℝ) (j : Fin 3) :
    gposOf R p j = (Matrix.transpose R).mulVec (Re • (specNorm p)⁻¹ • p) j := by
  unfold gposOf nposOf Matrix.mulVec
  simp only [Matrix.transpose_apply, specNorm_eq_norm3, Pi.smul_apply,
    smul_eq_mul, Matrix.dotProduct]
  apply Finset.sum_congr rfl
  intro k _
  ring

/-! ### `CADRE_Launch` assembly -/

/-- The time grid built in `CADRE_Launch.__init__`:
`h = (t2 - t1) / (n - 1)` and `t = np.array(range(0, n)) * h`. -/
noncomputable def time_grid (n : ℕ) (t1 t2 : ℝ) : List ℝ :=
  List.map (fun i : ℕ => (i : ℝ) * ((t2 - t1) / ((n : ℝ) - 1))) (List.range n)

/-- The five orbital parameters owned by the external `Orbit_Initial`
component. -/
structure OrbitParams where
  altPerigee : ℝ
  altApogee : ℝ
  RAAN : ℝ
  Inc : ℝ
  argPerigee : ℝ

/-- Modelled from the spec: the four external collaborators whose code is
not part of this repository snapshot (`Orbit_Initial` from `orbit.py`,
`Orbit_Dynamics` from `orbit.py`, `Comm_EarthsSpin` and `Comm_EarthsSpinMtx`
from `comm.py`).  Per §6 of the spec they are pure, deterministic functions:
the initial-state provider maps the orbital parameters to a 6-component
state, the propagator maps the initial state and the step size `h` to a
6×n state history, the time→quaternion component maps the time grid to a
length-n quaternion sequence, and the quaternion→matrix stage maps it to
the 3×3×n rotation-matrix stack. -/
structure Externals (n : ℕ) where
  orbitInitial : OrbitParams → (Fin 6 → ℝ)
  orbitDynamics : (Fin 6 → ℝ) → ℝ → (Fin 6 → Fin n → ℝ)
  earthSpin : List ℝ → (Fin n → Fin 4 → ℝ)
  earthSpinMtx : (Fin n → Fin 4 → ℝ) → (Fin n → Matrix (Fin 3) (Fin 3) ℝ)

/-- The variable ports of the `CADRE_Launch` assembly after the `connect`
statements of `__init__`: each field is the value held by the named port. -/
structure AssemblyState (n : ℕ) where
  t : List ℝ
  h : ℝ
  r_e2b_I0 : Fin 6 → ℝ
  r_e2b_I : Fin 6 → Fin n → ℝ
  q_E : Fin n → Fin 4 → ℝ
  O_IE : Fin n → Matrix (Fin 3) (Fin 3) ℝ
  lats : List ℝ
  lons : List ℝ
  Lat_k : ℝ
  Lon_k : ℝ

/-- The assembly state right after `CADRE_Launch.__init__`: the time grid
and step size are set, every array port is zero-filled and both scores are
the `Float(0.)` defaults. -/
noncomputable def initState (n : ℕ) (t1 t2 : ℝ) : AssemblyState n where
  t := time_grid n t1 t2
  h := (t2 - t1) / ((n : ℝ) - 1)
  r_e2b_I0 := fun _ => 0
  r_e2b_I := fun _ _ => 0
  q_E := fun _ _ => 0
  O_IE := fun _ => 0
  lats := List.replicate n 0
  lons := List.replicate n 0
  Lat_k := 0
  Lon_k := 0

/-- One `run()` of the assembly with the external components `E` and the
orbital parameters `p` held by `Orbit_Initial`: the workflow executes
`Orbit_Initial`, `Orbit_Dynamics`, `Comm_EarthsSpin`, `Comm_EarthsSpinMtx`,
`GroundLOC`, `Lon_uniform`, `Lat_uniform` in that order, each component
reading the ports the `connect` statements bind to its inputs
(`t → Comm_EarthsSpin.t`, `h → Orbit_Dynamics.h`,
`q_E → Comm_EarthsSpinMtx.q_E`, `O_IE → GroundLOC.O_IE`,
`r_e2b_I0 → Orbit_Dynamics.r_e2b_I0`, `r_e2b_I → GroundLOC.r_e2b_I`,
`lats → Lat_uniform.sample`, `lons → Lon_uniform.sample`). -/
noncomputable def run (n : ℕ) (E : Externals n) (p : OrbitParams)
    (s : AssemblyState n) : AssemblyState n :=
  let s1 := { s with r_e2b_I0 := E.orbitInitial p }
  let s2 := { s1 with r_e2b_I := E.orbitDynamics s1.r_e2b_I0 s1.h }
  let s3 := { s2 with q_E := E.earthSpin s2.t }
  let s4 := { s3 with O_IE := E.earthSpinMtx s3.q_E }
  let s5 := { s4 with lats := groundLOC_lats n s4.O_IE s4.r_e2b_I,
                      lons := groundLOC_lons n s4.O_IE s4.r_e2b_I }
  let s6 := { s5 with Lon_k := uniformity_k s5.lons }
  { s6 with Lat_k := uniformity_k s6.lats }

/-- The optimization objective `"Lat_uniform.k + Lon_uniform.k"` used by
both driver configurations of `__main__`. -/
def objective {n : ℕ} (s : AssemblyState n) : ℝ := s.Lat_k + s.Lon_k

/-- The parameter assignment performed by the closure `f(orbit)` of
`__main__`: `altPerigee = orbit[0]`, `altApogee = orbit[0]`,
`RAAN = orbit[1]`, `Inc = orbit[2]`; `argPerigee` is never written and so
keeps whatever value `Orbit_Initial` currently holds. -/
def main_f_params (cur : OrbitParams) (orbit : Fin 3 → ℝ) : OrbitParams where
  altPerigee := orbit 0
  altApogee := orbit 0
  RAAN := orbit 1
  Inc := orbit 2
  argPerigee := cur.argPerigee

/-- The objective value returned by the closure `f(orbit)` of `__main__`:
it mutates `Orbit_Initial`'s parameters via `main_f_params`, calls
`a.run()` and returns `a.Lat_uniform.k + a.Lon_uniform.k`. -/
noncomputable def main_f (n : ℕ) (E : Externals n) (cur : OrbitParams)
    (s : AssemblyState n) (orbit : Fin 3 → ℝ) : ℝ :=
  objective (run n E (main_f_params cur orbit) s)

/-! ### Claim theorems -/

/-- C1: for every pipeline evaluation (any externals, window and parameter
vector), the objective `Lat_uniform.k + Lon_uniform.k` after `run` equals
the uniformity score of the latitude sequence plus the uniformity score of
the longitude sequence, where those sequences are the ground-track
projector's outputs computed from the propagated state history
(initial state → propagation) and the rotation-matrix stack
(time grid → quaternions → matrices), reflecting the workflow's strict
dependency order. -/
theorem assembly_objective_is_sum_of_scores (n : ℕ) (E : Externals n)
    (t1 t2 : ℝ) (p : OrbitParams) :
    objective (run n E p (initState n t1 t2)) =
      uniformity_k (groundLOC_lats n
          (E.earthSpinMtx (E.earthSpin (time_grid n t1 t2)))
          (E.orbitDynamics (E.orbitInitial p) ((t2 - t1) / ((n : ℝ) - 1)))) +
      uniformity_k (groundLOC_lons n
          (E.earthSpinMtx (E.earthSpin (time_grid n t1 t2)))
          (E.orbitDynamics (E.orbitInitial p) ((t2 - t1) / ((n : ℝ) - 1)))) := by
  rfl

theorem groundLOC_lat_eq_specLat (n : ℕ)
    (O_IE : Fin n → Matrix (Fin 3) (Fin 3) ℝ) (r_e2b_I : Fin 6 → Fin n → ℝ)
    (i : Fin n) :
    groundLOC_lat O_IE r_e2b_I i = specLat (O_IE i) (posCol r_e2b_I i) := by
  unfold groundLOC_lat specLat r2d
  rw [gpos_eq_spec]

theorem groundLOC_lon_eq_specLon (n : ℕ)
    (O_IE : Fin n → Matrix (Fin 3) (Fin 3) ℝ) (r_e2b_I : Fin 6 → Fin n → ℝ)
    (i : Fin n) :
    groundLOC_lon O_IE r_e2b_I i = specLon (O_IE i) (posCol r_e2b_I i) := by
  unfold groundLOC_lon specLon r2d
  rw [gpos_eq_spec, gpos_eq_spec]

/-- C2: for every sample `i` whose position vector has nonzero norm, the
projector's outputs agree with the spec formulas
`lat[i] = asin(((Rᵢᵀ)(pos/‖pos‖·Re)).z / Re)·(180/π)` and
`lon[i] = atan2`-based longitude of the same rotated, surface-normalized
vector, and both output arrays have exactly length `n` in input order. -/
theorem groundLOC_execute_meets_spec (n : ℕ)
    (O_IE : Fin n → Matrix (Fin 3) (Fin 3) ℝ) (r_e2b_I : Fin 6 → Fin n → ℝ)
    (i : Fin n) (hpos : norm3 (posCol r_e2b_I i) ≠ 0) :
    (groundLOC_lats n O_IE r_e2b_I).length = n ∧
    (groundLOC_lons n O_IE r_e2b_I).length = n ∧
    (groundLOC_lats n O_IE r_e2b_I)[i.val]? =
      some (specLat (O_IE i) (posCol r_e2b_I i)) ∧
    (groundLOC_lons n O_IE r_e2b_I)[i.val]? =
      some (specLon (O_IE i) (posCol r_e2b_I i)) := by
  refine ⟨by simp [groundLOC_lats], by simp [groundLOC_lons], ?_, ?_⟩
  · simp only [groundLOC_lats, List.getElem?_ofFn, List.ofFnNthVal, i.isLt,
      dif_pos]
    exact congrArg some (groundLOC_lat_eq_specLat n O_IE r_e2b_I i)
  · simp only [groundLOC_lons, List.getElem?_ofFn, List.ofFnNthVal, i.isLt,
      dif_pos]
    exact congrArg some (groundLOC_lon_eq_specLon n O_IE r_e2b_I i)

/-- A concrete rotation-matrix stack for `n = 1`: the identity matrix. -/
noncomputable def exO : Fin 1 → Matrix (Fin 3) (Fin 3) ℝ := fun _ => 1

/-- A concrete 6×1 state history whose position at sample 0 is `(1, 0, 0)`
(velocity rows zero). -/
noncomputable def exS : Fin 6 → Fin 1 → ℝ := fun r _ => if r.val = 0 then 1 else 0

theorem exS_pos_norm : norm3 (posCol exS (0 : Fin 1)) = 1 := by
  unfold norm3 posCol exS
  rw [Fin.sum_univ_three]
  norm_num [Fin.castLE]

/-- Witness for C2: at `n = 1`, the identity rotation stack and position
`(1, 0, 0)`, the nonzero-norm hypothesis holds and the projector outputs
have length 1. -/
theorem groundLOC_execute_meets_spec_witness :
    norm3 (posCol exS (0 : Fin 1)) ≠ 0 ∧
    (groundLOC_lats 1 exO exS).length = 1 ∧
    (groundLOC_lons 1 exO exS).length = 1 := by
  have hpos : norm3 (posCol exS (0 : Fin 1)) ≠ 0 := by
    rw [exS_pos_norm]; norm_num
  exact ⟨hpos, (groundLOC_execute_meets_spec 1 exO exS 0 hpos).1,
    (groundLOC_execute_meets_spec 1 exO exS 0 hpos).2.1⟩

theorem std_moment4_eq (s : List ℝ) :
    std_moment4 s = moment s 4 / (moment s 2) ^ 2 := by
  have hσ4 : Real.sqrt (moment s 2) ^ 4 = moment s 2 ^ 2 := by
    rw [show (4 : ℕ) = 2 * 2 from rfl, pow_mul, Real.sq_sqrt (moment_two_nonneg s)]
  have hmap : s.map (fun x => ((x - mean s) / Real.sqrt (moment s 2)) ^ 4)
      = s.map (fun x => (x - mean s) ^ 4 * (Real.sqrt (moment s 2) ^ 4)⁻¹) := by
    congr 1
    funext x
    rw [div_pow, div_eq_mul_inv]
  unfold std_moment4
  rw [hmap, mean, List.sum_map_mul_right, List.length_map, hσ4]
  have h4 : moment s 4 = (s.map (fun x => (x - mean s) ^ 4)).sum / (s.length : ℝ) := rfl
  rw [h4]
  ring

/-- C3: the scorer returns `k = (excess_kurtosis(sample) + 6/5)²` with
excess kurtosis in the Fisher convention (4th standardized moment minus 3),
the output is non-negative, and it is `0` exactly when the excess kurtosis
equals the theoretical uniform value `−6/5`. -/
theorem uniformity_execute_meets_spec (s : List ℝ) :
    uniformity_k s = (excess_kurtosis_spec s + 6 / 5) ^ 2 ∧
    0 ≤ uniformity_k s ∧
    (uniformity_k s = 0 ↔ excess_kurtosis_spec s = -(6 / 5)) := by
  have hk : kurtosis s = excess_kurtosis_spec s := by
    unfold kurtosis excess_kurtosis_spec
    rw [std_moment4_eq]
  refine ⟨by rw [uniformity_k, hk], sq_nonneg (kurtosis s + 6 / 5), ?_⟩
  rw [uniformity_k, hk, pow_eq_zero_iff (two_ne_zero)]
  constructor
  · intro h
    linarith
  · intro h
    rw [h]
    norm_num

/-- C6 counterexample: the all-zero sample does not fail; the scorer
returns the numeric score `(−3 + 6/5)² = 81/25` (old `scipy` maps the
zero-variance case to kurtosis `0`, hence excess kurtosis `−3`). -/
theorem uniformity_all_zero_returns_score :
    uniformity_k (List.replicate 4 (0 : ℝ)) = 81 / 25 := by
  norm_num [uniformity_k, kurtosis, moment, mean, List.replicate]

/-- C6 amended: on any zero-variance sample the scorer does not fail;
`scipy.stats.kurtosis` maps the `m2 == 0` case to excess kurtosis `−3`
and the scorer returns `(−3 + 6/5)² = 81/25`. -/
theorem uniformity_zero_variance_score (s : List ℝ)
    (h : moment s 2 = 0) : uniformity_k s = 81 / 25 := by
  unfold uniformity_k kurtosis
  rw [h]
  norm_num

/-- Witness for the amended C6 at the constant sample `[5, 5]`. -/
theorem uniformity_zero_variance_score_witness :
    moment [(5 : ℝ), 5] 2 = 0 ∧ uniformity_k [(5 : ℝ), 5] = 81 / 25 := by
  have h : moment [(5 : ℝ), 5] 2 = 0 := by
    norm_num [moment, mean]
  exact ⟨h, uniformity_zero_variance_score [(5 : ℝ), 5] h⟩

theorem mean_perm {s t : List ℝ} (h : s.Perm t) : mean s = mean t := by
  unfold mean
  rw [h.sum_eq, h.length_eq]

theorem moment_perm {s t : List ℝ} (h : s.Perm t) (k : ℕ) :
    moment s k = moment t k := by
  unfold moment
  rw [mean_perm h, (h.map (fun x => (x - mean t) ^ k)).sum_eq, h.length_eq]

/-- C7: the uniformity score is invariant under permutation of the sample
sequence. -/
theorem uniformity_perm_invariant (s t : List ℝ) (h : s.Perm t) :
    uniformity_k s = uniformity_k t := by
  unfold uniformity_k kurtosis
  rw [moment_perm h 4, moment_perm h 2]

/-- Witness for C7: swapping the two elements of `[1, 2]` leaves the score
unchanged. -/
theorem uniformity_perm_invariant_witness :
    uniformity_k [(1 : ℝ), 2] = uniformity_k [(2 : ℝ), 1] :=
  uniformity_perm_invariant _ _ (List.Perm.swap 2 1 [])

theorem r2d_pos : 0 < r2d := by
  unfold r2d
  exact div_pos (by norm_num) Real.pi_pos

/-- C4: for every sample whose position vector has nonzero norm and whose
rotation matrix is orthonormal, the projected latitude lies in
`[−90, 90]` degrees and the projected longitude in `(−180, 180]` degrees. -/
theorem groundLOC_output_ranges (n : ℕ)
    (O_IE : Fin n → Matrix (Fin 3) (Fin 3) ℝ) (r_e2b_I : Fin 6 → Fin n → ℝ)
    (i : Fin n) (hpos : norm3 (posCol r_e2b_I i) ≠ 0)
    (horth : (O_IE i).transpose * O_IE i = 1) :
    -90 ≤ groundLOC_lat O_IE r_e2b_I i ∧ groundLOC_lat O_IE r_e2b_I i ≤ 90 ∧
    -180 < groundLOC_lon O_IE r_e2b_I i ∧ groundLOC_lon O_IE r_e2b_I i ≤ 180 := by
  have hπ : Real.pi ≠ 0 := Real.pi_ne_zero
  have h90 : Real.pi / 2 * r2d = 90 := by
    unfold r2d
    field_simp
    ring
  have h180 : Real.pi * r2d = 180 := by
    unfold r2d
    field_simp
  refine ⟨?_, ?_, ?_, ?_⟩
  · unfold groundLOC_lat
    have h1 := Real.neg_pi_div_two_le_arcsin (gposOf (O_IE i) (posCol r_e2b_I i) 2 / Re)
    have h2 := mul_le_mul_of_nonneg_right h1 r2d_pos.le
    calc (-90 : ℝ) = -(Real.pi / 2) * r2d := by rw [neg_mul, h90]
    _ ≤ _ := h2
  · unfold groundLOC_lat
    have h1 := Real.arcsin_le_pi_div_two (gposOf (O_IE i) (posCol r_e2b_I i) 2 / Re)
    have h2 := mul_le_mul_of_nonneg_right h1 r2d_pos.le
    calc Real.arcsin (gposOf (O_IE i) (posCol r_e2b_I i) 2 / Re) * r2d
        ≤ Real.pi / 2 * r2d := h2
    _ = 90 := h90
  · unfold groundLOC_lon arctan2
    have h1 := Complex.neg_pi_lt_arg
      ((gposOf (O_IE i) (posCol r_e2b_I i) 0 : ℂ) +
        (gposOf (O_IE i) (posCol r_e2b_I i) 1 : ℝ) * Complex.I)
    have h2 := mul_lt_mul_of_pos_right h1 r2d_pos
    calc (-180 : ℝ) = -Real.pi * r2d := by rw [neg_mul, h180]
    _ < _ := h2
  · unfold groundLOC_lon arctan2
    have h1 := Complex.arg_le_pi
      ((gposOf (O_IE i) (posCol r_e2b_I i) 0 : ℂ) +
        (gposOf (O_IE i) (posCol r_e2b_I i) 1 : ℝ) * Complex.I)
    have h2 := mul_le_mul_of_nonneg_right h1 r2d_pos.le
    calc Complex.arg ((gposOf (O_IE i) (posCol r_e2b_I i) 0 : ℂ) +
          (gposOf (O_IE i) (posCol r_e2b_I i) 1 : ℝ) * Complex.I) * r2d
        ≤ Real.pi * r2d := h2
    _ = 180 := h180

/-- Witness for C4: at the identity rotation stack and position `(1, 0, 0)`
both hypotheses hold, and the latitude is within its range. -/
theorem groundLOC_output_ranges_witness :
    norm3 (posCol exS (0 : Fin 1)) ≠ 0 ∧
    (exO (0 : Fin 1)).transpose * exO (0 : Fin 1) = 1 ∧
    (-90 ≤ groundLOC_lat exO exS 0 ∧ groundLOC_lat exO exS 0 ≤ 90 ∧
     -180 < groundLOC_lon exO exS 0 ∧ groundLOC_lon exO exS 0 ≤ 180) := by
  have hpos : norm3 (posCol exS (0 : Fin 1)) ≠ 0 := by
    rw [exS_pos_norm]
    norm_num
  have horth : (exO (0 : Fin 1)).transpose * exO (0 : Fin 1) = 1 := by
    simp [exO]
  exact ⟨hpos, horth, groundLOC_output_ranges 1 exO exS 0 hpos horth⟩

/-- The all-zero 6×1 state history: its single position vector has zero
norm. -/
noncomputable def zeroS : Fin 6 → Fin 1 → ℝ := fun _ _ => 0

/-- C5 counterexample: on a state history whose sample-0 position has zero
norm, `GroundLOC.execute` does not fail — it produces numeric latitude and
longitude values for that sample (`0` in the embedding, where the
division-by-zero of the normalization yields `0`; `numpy` likewise emits
`nan` with a warning rather than raising). -/
theorem groundLOC_zero_norm_returns_values :
    groundLOC_lats 1 exO zeroS = [0] ∧ groundLOC_lons 1 exO zeroS = [0] := by
  have hg : ∀ j : Fin 3, gposOf (exO (0 : Fin 1)) (posCol zeroS (0 : Fin 1)) j = 0 := by
    intro j
    unfold gposOf nposOf posCol zeroS
    simp
  constructor
  · unfold groundLOC_lats groundLOC_lat
    simp [List.ofFn_succ, List.ofFn_zero, hg, Real.arcsin_zero]
  · unfold groundLOC_lons groundLOC_lon arctan2
    simp [List.ofFn_succ, List.ofFn_zero, hg, Complex.arg_zero]

/-- C5 amended: the projector never fails; for every rotation stack and
every state history — zero-norm positions included — it produces full
length-`n` latitude and longitude arrays. -/
theorem groundLOC_total_lengths (n : ℕ)
    (O_IE : Fin n → Matrix (Fin 3) (Fin 3) ℝ) (r_e2b_I : Fin 6 → Fin n → ℝ) :
    (groundLOC_lats n O_IE r_e2b_I).length = n ∧
    (groundLOC_lons n O_IE r_e2b_I).length = n := by
  constructor <;> simp [groundLOC_lats, groundLOC_lons]

/-- C9: for every `n ≥ 2` the assembly's time grid has length `n`, entry
`t[i] = i·h` with `h = (t2 − t1)/(n − 1)`, and with the default window
`t1 = 0`, `t2 = 43200` it is strictly increasing. -/
theorem time_grid_spec (n : ℕ) (hn : 2 ≤ n) :
    (time_grid n 0 43200).length = n ∧
    (∀ i : ℕ, i < n → (time_grid n 0 43200)[i]? =
      some ((i : ℝ) * ((43200 - 0) / ((n : ℝ) - 1)))) ∧
    (time_grid n 0 43200).Pairwise (· < ·) := by
  refine ⟨by rw [time_grid, List.length_map, List.length_range], ?_, ?_⟩
  · intro i hi
    rw [time_grid, List.getElem?_map]
    simp [List.getElem?_range, hi]
  · unfold time_grid
    have hpos : 0 < (43200 - 0 : ℝ) / ((n : ℝ) - 1) := by
      apply div_pos (by norm_num)
      have h2 : (2 : ℝ) ≤ (n : ℝ) := by exact_mod_cast hn
      linarith
    rw [List.pairwise_map]
    refine (List.pairwise_lt_range n).imp ?_
    intro a b hab
    have hab' : (a : ℝ) < (b : ℝ) := by exact_mod_cast hab
    exact mul_lt_mul_of_pos_right hab' hpos

/-- Witness for C9 at `n = 4`: the default grid has length 4 and entry 1
equals `1 · (43200 − 0)/3`. -/
theorem time_grid_spec_witness :
    2 ≤ 4 ∧ (time_grid 4 0 43200).length = 4 ∧
    (time_grid 4 0 43200)[1]? = some ((1 : ℝ) * ((43200 - 0) / ((4 : ℝ) - 1))) := by
  have h := time_grid_spec 4 (by norm_num)
  exact ⟨by norm_num, h.1, by simpa using h.2.1 1 (by norm_num)⟩

/-- A 6×1 state history that is zero on the position rows but nonzero on
velocity row 5. -/
noncomputable def velS : Fin 6 → Fin 1 → ℝ := fun r _ => if r.val = 5 then 1 else 0

/-- C10: two state histories that agree on the position rows 0–2 at every
sample yield identical latitude and longitude arrays under the same
rotation-matrix stack — the velocity rows 3–5 never influence the ground
track. -/
theorem groundLOC_ignores_velocity (n : ℕ)
    (O_IE : Fin n → Matrix (Fin 3) (Fin 3) ℝ) (S1 S2 : Fin 6 → Fin n → ℝ)
    (h : ∀ i : Fin n, ∀ j : Fin 3,
      S1 (Fin.castLE (by norm_num) j) i = S2 (Fin.castLE (by norm_num) j) i) :
    groundLOC_lats n O_IE S1 = groundLOC_lats n O_IE S2 ∧
    groundLOC_lons n O_IE S1 = groundLOC_lons n O_IE S2 := by
  have hpos : ∀ i, posCol S1 i = posCol S2 i := by
    intro i
    funext j
    exact h i j
  constructor
  · unfold groundLOC_lats
    congr 1
    funext i
    unfold groundLOC_lat
    rw [hpos]
  · unfold groundLOC_lons
    congr 1
    funext i
    unfold groundLOC_lon
    rw [hpos]

/-- Witness for C10: the zero state history and one that differs only in
velocity row 5 agree on the position rows and produce the same latitude
array. -/
theorem groundLOC_ignores_velocity_witness :
    (∀ i : Fin 1, ∀ j : Fin 3,
      zeroS (Fin.castLE (by norm_num) j) i = velS (Fin.castLE (by norm_num) j) i) ∧
    groundLOC_lats 1 exO zeroS = groundLOC_lats 1 exO velS := by
  have h : ∀ i : Fin 1, ∀ j : Fin 3,
      zeroS (Fin.castLE (by norm_num) j) i = velS (Fin.castLE (by norm_num) j) i := by
    intro i j
    unfold zeroS velS
    have hj : j.val < 3 := j.isLt
    rw [if_neg (by simp [Fin.castLE]; omega)]
  exact ⟨h, (groundLOC_ignores_velocity 1 exO zeroS velS h).1⟩

/-- C8 counterexample: the `__main__` search cannot treat the five orbital
parameters as independent decision variables — no decision vector of the
`f` closure can set `altPerigee = 500` and `altApogee = 1000`
simultaneously, because `f` writes `orbit[0]` into both. -/
theorem main_f_params_not_independent :
    ¬ ∃ orbit : Fin 3 → ℝ,
      (main_f_params ⟨500, 500, 0, 45, 0⟩ orbit).altPerigee = 500 ∧
      (main_f_params ⟨500, 500, 0, 45, 0⟩ orbit).altApogee = 1000 := by
  rintro ⟨orbit, h1, h2⟩
  unfold main_f_params at h1 h2
  simp only at h1 h2
  rw [h1] at h2
  norm_num at h2

/-- C8 amended: the `__main__` scipy search optimizes a 3-dimensional
decision vector; for every in-bounds decision vector (the bounds passed to
`fmin_slsqp` are `[(500, 1000), (−180, 180), (0, 90)]`), the resulting
orbital parameters satisfy the declared boxes, with `altApogee` tied to
`altPerigee` and `argPerigee` left at its prior value. -/
theorem main_f_params_bounds (cur : OrbitParams) (orbit : Fin 3 → ℝ)
    (h0 : 500 ≤ orbit 0 ∧ orbit 0 ≤ 1000)
    (h1 : -180 ≤ orbit 1 ∧ orbit 1 ≤ 180)
    (h2 : 0 ≤ orbit 2 ∧ orbit 2 ≤ 90) :
    (main_f_params cur orbit).altPerigee = (main_f_params cur orbit).altApogee ∧
    500 ≤ (main_f_params cur orbit).altPerigee ∧
    (main_f_params cur orbit).altPerigee ≤ 1000 ∧
    500 ≤ (main_f_params cur orbit).altApogee ∧
    (main_f_params cur orbit).altApogee ≤ 1000 ∧
    -180 ≤ (main_f_params cur orbit).RAAN ∧
    (main_f_params cur orbit).RAAN ≤ 180 ∧
    0 ≤ (main_f_params cur orbit).Inc ∧
    (main_f_params cur orbit).Inc ≤ 90 ∧
    (main_f_params cur orbit).argPerigee = cur.argPerigee := by
  unfold main_f_params
  exact ⟨rfl, h0.1, h0.2, h0.1, h0.2, h1.1, h1.2, h2.1, h2.2, rfl⟩

/-- Witness for the amended C8 at the search's initial guess
`[600, 0, 45]`. -/
theorem main_f_params_bounds_witness :
    ((500 : ℝ) ≤ (![600, 0, 45] : Fin 3 → ℝ) 0 ∧
      (![600, 0, 45] : Fin 3 → ℝ) 0 ≤ 1000) ∧
    ((-180 : ℝ) ≤ (![600, 0, 45] : Fin 3 → ℝ) 1 ∧
      (![600, 0, 45] : Fin 3 → ℝ) 1 ≤ 180) ∧
    ((0 : ℝ) ≤ (![600, 0, 45] : Fin 3 → ℝ) 2 ∧
      (![600, 0, 45] : Fin 3 → ℝ) 2 ≤ 90) ∧
    (main_f_params ⟨500, 500, 0, 45, 0⟩ ![600, 0, 45]).altPerigee =
      (main_f_params ⟨500, 500, 0, 45, 0⟩ ![600, 0, 45]).altApogee := by
  have h0 : (500 : ℝ) ≤ (![600, 0, 45] : Fin 3 → ℝ) 0 ∧
      (![600, 0, 45] : Fin 3 → ℝ) 0 ≤ 1000 := by norm_num
  have h1 : (-180 : ℝ) ≤ (![600, 0, 45] : Fin 3 → ℝ) 1 ∧
      (![600, 0, 45] : Fin 3 → ℝ) 1 ≤ 180 := by norm_num
  have h2 : (0 : ℝ) ≤ (![600, 0, 45] : Fin 3 → ℝ) 2 ∧
      (![600, 0, 45] : Fin 3 → ℝ) 2 ≤ 90 := by norm_num
  exact ⟨h0, h1, h2,
    (main_f_params_bounds ⟨500, 500, 0, 45, 0⟩ ![600, 0, 45] h0 h1 h2).1⟩

end CADRE
